import Mathlib

/-!
Verification development for the jpterm live JMESPath terminal (src/jpterm.py).

The Python program is shallowly embedded: JSON-like Python values become the
inductive `JSON` type (Python `None` is `JSON.null`; object keys keep their
insertion order, matching the `dict_cls=collections.OrderedDict` evaluation
option), `json.dumps(obj, indent=2, ensure_ascii=False)` becomes `json_dumps`,
the widget state of `JMESPathDisplay` becomes the `DisplayState` structure, and
each event handler becomes a pure state-transition function.  The external
collaborators (the JMESPath engine, the pygments lexer, urwid's rendering) are
parameters of the transitions: the engine is a function producing an
`EvalOutcome` (`err` models any raised `Exception`), the lexer is a function
from text to a token stream.
-/

/-- JSON-like Python values.  Python floats carry their `repr` literal (no
arithmetic is ever performed on numbers in this program, only
serialization). Objects are ordered association lists. -/
inductive JSON where
  | null : JSON
  | bool (b : Bool) : JSON
  | int (n : Int) : JSON
  | float (lit : String) : JSON
  | str (s : String) : JSON
  | arr (xs : List JSON) : JSON
  | obj (kvs : List (String × JSON)) : JSON

/-- Hexadecimal digit, lowercase, as produced by Python's `"\u%04x"`. -/
def hexDigit (n : Nat) : Char :=
  if n < 10 then Char.ofNat (48 + n) else Char.ofNat (87 + n)

/-- Four lowercase hex digits. -/
def hex4 (n : Nat) : String :=
  String.mk [hexDigit (n / 4096 % 16), hexDigit (n / 256 % 16),
             hexDigit (n / 16 % 16), hexDigit (n % 16)]

/-- One character of a JSON string literal as emitted by Python's
`json.dumps` with `ensure_ascii=False`: backslash, double quote and control
characters are escaped, everything else is kept verbatim. -/
def escapeJsonChar (c : Char) : String :=
  if c = '\\' then "\\\\"
  else if c = '"' then "\\\""
  else if c = '\n' then "\\n"
  else if c = '\t' then "\\t"
  else if c = '\r' then "\\r"
  else if c.toNat = 8 then "\\b"
  else if c.toNat = 12 then "\\f"
  else if c.toNat < 32 then "\\u" ++ hex4 c.toNat
  else String.singleton c

/-- A JSON string literal (`json.dumps` of a Python `str`, `ensure_ascii=False`). -/
def encodeJsonString (s : String) : String :=
  "\"" ++ String.join (s.toList.map escapeJsonChar) ++ "\""

/-- `n` spaces. -/
def nspaces (n : Nat) : String := String.mk (List.replicate n ' ')

mutual
/-- `json.dumps(v, indent=2, ensure_ascii=False)` at indentation level `ind`:
the canonical serialization used both for the result pane and the final
output (`JMESPathDisplay._json_dumps`). -/
def dumpsVal (ind : Nat) : JSON → String
  | JSON.null => "null"
  | JSON.bool b => if b then "true" else "false"
  | JSON.int n => toString n
  | JSON.float lit => lit
  | JSON.str s => encodeJsonString s
  | JSON.arr [] => "[]"
  | JSON.arr (x :: xs) =>
      "[\n" ++ dumpsArrItems (ind + 1) (x :: xs) ++ "\n" ++ nspaces (2 * ind) ++ "]"
  | JSON.obj [] => "\x7b\x7d"
  | JSON.obj (kv :: kvs) =>
      "\x7b\n" ++ dumpsObjItems (ind + 1) (kv :: kvs) ++ "\n" ++ nspaces (2 * ind) ++ "\x7d"

/-- Array elements, comma-separated, one per line. -/
def dumpsArrItems (ind : Nat) : List JSON → String
  | [] => ""
  | [x] => nspaces (2 * ind) ++ dumpsVal ind x
  | x :: y :: xs =>
      nspaces (2 * ind) ++ dumpsVal ind x ++ ",\n" ++ dumpsArrItems ind (y :: xs)

/-- Object members, comma-separated, one per line, `": "` key separator. -/
def dumpsObjItems (ind : Nat) : List (String × JSON) → String
  | [] => ""
  | [(k, v)] => nspaces (2 * ind) ++ encodeJsonString k ++ ": " ++ dumpsVal ind v
  | (k, v) :: kv :: kvs =>
      nspaces (2 * ind) ++ encodeJsonString k ++ ": " ++ dumpsVal ind v ++ ",\n"
        ++ dumpsObjItems ind (kv :: kvs)
end

/-- `JMESPathDisplay._json_dumps`: `json.dumps(obj, indent=2, ensure_ascii=False)`. -/
def json_dumps (obj : JSON) : String := dumpsVal 0 obj

/-- A Python value used as a display attribute by the formatter.  The values
stored in `ConsoleJSONFormatter.TOKEN_TYPES` are `urwid.AttrSpec(fg, bg)`
instances; `tuple1` models a Python 1-tuple (the class attribute
`DEFAULT_COLOR` is written with a trailing comma in the source, so it is the
tuple `(AttrSpec('light blue', 'default'),)`, not an `AttrSpec`). -/
inductive StyleVal where
  | attrSpec (fg bg : String) : StyleVal
  | tuple1 (inner : StyleVal) : StyleVal
deriving DecidableEq, Repr

/-- `True` exactly for `urwid.AttrSpec` instances. -/
def StyleVal.isAttrSpec : StyleVal → Bool
  | StyleVal.attrSpec _ _ => true
  | StyleVal.tuple1 _ => false

/-- `ConsoleJSONFormatter.TOKEN_TYPES`: the static token-type table, keyed by
`str(token_type)`. -/
def TOKEN_TYPES : List (String × StyleVal) :=
  [("Token.Literal.String.Double", StyleVal.attrSpec "dark green" "default"),
   ("Token.Literal.Number.Integer", StyleVal.attrSpec "dark blue" "default"),
   ("Token.Literal.Number.Float", StyleVal.attrSpec "dark blue" "default"),
   ("Token.Keyword.Constant", StyleVal.attrSpec "light blue" "default"),
   ("Token.Punctuation", StyleVal.attrSpec "light blue" "default"),
   ("Token.Text", StyleVal.attrSpec "white" "default"),
   ("Token.Name.Tag", StyleVal.attrSpec "white" "default")]

/-- `ConsoleJSONFormatter.DEFAULT_COLOR`.  The source line ends in a comma
(`urwid.AttrSpec('light blue', 'default'),`), so the class attribute is a
1-tuple wrapping the `AttrSpec`, not the `AttrSpec` itself. -/
def DEFAULT_COLOR : StyleVal :=
  StyleVal.tuple1 (StyleVal.attrSpec "light blue" "default")

/-- `self.TOKEN_TYPES.get(str(token_type), default)`. -/
def lookupStyle (tokenType : String) : StyleVal :=
  (TOKEN_TYPES.lookup tokenType).getD DEFAULT_COLOR

/-- `ConsoleJSONFormatter.generate_colors`: pair each token's string with the
style looked up in the static table (or the default). A token is the pair
`(str(token_type), token_string)` produced by the pygments lexer. -/
def generate_colors (tokens : List (String × String)) : List (StyleVal × String) :=
  tokens.map (fun p => (lookupStyle p.1, p.2))

/-- A pygments lexer is external: any function from text to a token stream. -/
def Lexer : Type := String → List (String × String)

/-- `JMESPathDisplay._create_colorized_json`. -/
def create_colorized_json (lexer : Lexer) (jsonString : String) :
    List (StyleVal × String) :=
  generate_colors (lexer jsonString)

/-- Content of an urwid `Text` widget: either a plain string (`set_text('')`)
or colorized markup (`set_text(result_markup)`). -/
inductive PaneContent where
  | plain (s : String) : PaneContent
  | markup (m : List (StyleVal × String)) : PaneContent
deriving DecidableEq

/-- The three output modes, in the order of the `OUTPUT_MODES` list. -/
inductive OutputMode where
  | result : OutputMode
  | expression : OutputMode
  | quiet : OutputMode
deriving DecidableEq

/-- The observable widget state of a `JMESPathDisplay` session. -/
structure DisplayState where
  /-- `self.parsed_json`: the loaded document, never mutated. -/
  parsed_json : JSON
  /-- `self.last_result` (`None` initially). -/
  last_result : Option JSON
  /-- `self.last_expression` (`None` initially). -/
  last_expression : Option String
  /-- `self.input_expr.edit_text`. -/
  input_expr_text : String
  /-- `self.jmespath_result`: the result pane. -/
  jmespath_result : PaneContent
  /-- `self.footer`: the status line. -/
  footer : String
  /-- `self.output_mode`. -/
  output_mode : OutputMode

/-- The state after `__init__` and `_create_view`: no result, no expression,
empty panes, footer `"Status: "`. -/
def initialState (inputData : JSON) (outputMode : OutputMode) : DisplayState :=
  { parsed_json := inputData
    last_result := none
    last_expression := none
    input_expr_text := ""
    jmespath_result := PaneContent.plain ""
    footer := "Status: "
    output_mode := outputMode }

/-- Python's `v is None` test: true exactly for the null value. -/
def JSON.isNull : JSON → Bool
  | JSON.null => true
  | _ => false

/-- Outcome of `jmespath.compile(text).search(self.parsed_json, options)`:
`err` models any raised `Exception` (compilation or evaluation error), `ok v`
a returned value (`v = JSON.null` models Python `None`). -/
inductive EvalOutcome where
  | err : EvalOutcome
  | ok (v : JSON) : EvalOutcome

/-- A JMESPath engine is external: any function from (document, expression
text) to an outcome. -/
def Engine : Type := JSON → String → EvalOutcome

/-- `JMESPathDisplay._on_edit(widget, text)`, translated line by line:
set `last_expression = text`; if the text is empty, clear the result pane and
return; otherwise evaluate, and on an exception do nothing further, while on
success set the footer to `"Status: success"` and, when the result is not
`None`, store it in `last_result` and display its colorized serialization. -/
def on_edit (engine : Engine) (lexer : Lexer) (s : DisplayState) (text : String) :
    DisplayState :=
  let s := { s with last_expression := some text }
  if text = "" then
    { s with jmespath_result := PaneContent.plain "" }
  else
    match engine s.parsed_json text with
    | EvalOutcome.err => s
    | EvalOutcome.ok result =>
        let s := { s with footer := "Status: success" }
        if result.isNull then s
        else
          { s with
            last_result := some result
            jmespath_result :=
              PaneContent.markup
                (create_colorized_json lexer (json_dumps result)) }

/-- The `'ctrl ]'` branch of `JMESPathDisplay.unhandled_input`: assigning
`self.input_expr.edit_text = ''` makes urwid's `Edit.set_edit_text` emit the
`'change'` signal, which runs the connected `_on_edit` handler with the new
empty text; the handler ran, then `self.jmespath_result.set_text('')` clears
the pane again. -/
def clear_command (engine : Engine) (lexer : Lexer) (s : DisplayState) :
    DisplayState :=
  let s := on_edit engine lexer { s with input_expr_text := "" } ""
  { s with jmespath_result := PaneContent.plain "" }

/-- Destination of the final output: `open(filename, 'w')` (truncating any
existing content) when a path was configured, `sys.stdout` otherwise. -/
inductive Sink where
  | file (path : String) : Sink
  | stdout : Sink
deriving DecidableEq

/-- `JMESPathDisplay.display_output(filename)`: `none` when nothing is
emitted (the early `return`), otherwise the sink together with the exact text
written to it.  The branch order mirrors the `if`/`elif`/`else` chain:
`result` mode with a set `last_result` serializes it with `_json_dumps`;
otherwise `expression` mode with a set `last_expression` emits it verbatim;
otherwise nothing. -/
def display_output (s : DisplayState) (filename : Option String) :
    Option (Sink × String) :=
  match s.output_mode, s.last_result, s.last_expression with
  | OutputMode.result, some r, _ =>
      some (match filename with
            | some p => Sink.file p
            | none => Sink.stdout, json_dumps r)
  | OutputMode.expression, _, some e =>
      some (match filename with
            | some p => Sink.file p
            | none => Sink.stdout, e)
  | _, _, _ => none

/-- `SAMPLE_JSON`: the fixed built-in sample document. -/
def SAMPLE_JSON : JSON :=
  JSON.obj
    [("a", JSON.str "foo"),
     ("b", JSON.int 2),
     ("c", JSON.obj [("d", JSON.str "baz"),
                     ("e", JSON.arr [JSON.int 1, JSON.int 2, JSON.int 3])]),
     ("d", JSON.bool true),
     ("e", JSON.null),
     ("f", JSON.float "1.1")]

/-- An error raised while loading the input document.  `valueError` models
Python `ValueError` (which `json.JSONDecodeError` subclasses: a parse
failure); `osError` models `OSError` (e.g. `FileNotFoundError` from `open`). -/
inductive LoadErr where
  | valueError (msg : String) : LoadErr
  | osError (msg : String) : LoadErr
deriving DecidableEq

/-- `_load_input_json(filename)`.  The file reader (`open` + `json.load`) and
the pipe loader are external effects, passed as parameters: `readFileJson f`
is the outcome of reading and parsing file `f`, `pipeResult` the outcome of
`_load_json_from_pipe()`, and `stdinIsTty` the value of
`os.isatty(sys.stdin.fileno())`. -/
def load_input_json (readFileJson : String → Except LoadErr JSON)
    (stdinIsTty : Bool) (pipeResult : Except LoadErr JSON)
    (filename : Option String) : Except LoadErr JSON :=
  match filename with
  | some f => readFileJson f
  | none => if !stdinIsTty then pipeResult else Except.ok SAMPLE_JSON

/-- File-descriptor events performed by `_load_json_from_pipe`, in program
order: duplicate fd 0, close fd 0, open the controlling terminal
(`os.ctermid()`, which lands on the lowest free descriptor, fd 0), a sequence
of `os.read` calls on the duplicate (`readChunk n` returns `n` bytes; `n = 0`
is end-of-stream), then `json.loads` on the accumulated buffer. -/
inductive PipeEvent where
  | dupStdin : PipeEvent
  | closeStdin : PipeEvent
  | openTty : PipeEvent
  | readChunk (n : Nat) : PipeEvent
  | parseBuf : PipeEvent
deriving DecidableEq

/-- The event trace of `_load_json_from_pipe` when the pipe delivers the
nonempty chunks `chunks` before end-of-stream: dup, close, reopen, then the
read loop (each chunk plus the final empty read), then the parse.  The trace
up to and including `parseBuf` is the same whether `json.loads` succeeds or
raises, since the parse is the last event. -/
def load_json_from_pipe_events (chunks : List String) : List PipeEvent :=
  [PipeEvent.dupStdin, PipeEvent.closeStdin, PipeEvent.openTty]
    ++ chunks.map (fun c => PipeEvent.readChunk c.length)
    ++ [PipeEvent.readChunk 0, PipeEvent.parseBuf]

/-- `true` for `os.read` events. -/
def PipeEvent.isRead : PipeEvent → Bool
  | PipeEvent.readChunk _ => true
  | _ => false

/-- The ordering property asserted by the specification: every read of the
input stream happens strictly before the standard-input descriptor is closed
(no read occurs at or after a `closeStdin` event). -/
def drainPrecedesClose : List PipeEvent → Bool
  | [] => true
  | e :: rest =>
      (if e = PipeEvent.closeStdin then rest.all (fun x => !x.isRead) else true)
        && drainPrecedesClose rest

/-- What `main()` does, viewed from the caller: return an exit code, or let
an exception propagate out. -/
inductive MainOutcome where
  | returns (code : Nat) : MainOutcome
  | raises (e : LoadErr) : MainOutcome
deriving DecidableEq

/-- Observable behaviour of one run of `main()`. -/
structure MainResult where
  /-- Return value of `main`, or the exception escaping it. -/
  outcome : MainOutcome
  /-- Whether `main` itself wrote the "Unable to load the input JSON"
  diagnostic to `sys.stderr`. -/
  wroteStderr : Bool
  /-- Whether the interactive loop (`display.main`) was entered. -/
  enteredLoop : Bool
deriving DecidableEq

/-- `main()` as a function of the document-load outcome and of whether the
user interrupts the interactive loop with `KeyboardInterrupt`.  Only
`ValueError` is caught by the `except` clause around `_load_input_json`; an
`OSError` (unreadable file) propagates.  After a successful load the loop
runs, a `KeyboardInterrupt` is swallowed, `display_output` runs and `main`
returns `0`. -/
def main_fn (loadResult : Except LoadErr JSON) (interrupted : Bool) :
    MainResult :=
  match loadResult with
  | Except.error (LoadErr.valueError _) =>
      { outcome := MainOutcome.returns 1, wroteStderr := true,
        enteredLoop := false }
  | Except.error (LoadErr.osError m) =>
      { outcome := MainOutcome.raises (LoadErr.osError m), wroteStderr := false,
        enteredLoop := false }
  | Except.ok _ =>
      { outcome := MainOutcome.returns 0, wroteStderr := false,
        enteredLoop := true }

/-- The process around `main`: `sys.exit(main())` under
`if __name__ == '__main__'`.  When `main` returns `c` the process exits with
status `c`; when an exception escapes, the interpreter prints a traceback to
`sys.stderr` and exits with status 1.  The triple is (exit status, whether a
diagnostic reached the error stream, whether the interactive loop ran). -/
def process_run (loadResult : Except LoadErr JSON) (interrupted : Bool) :
    Nat × Bool × Bool :=
  let r := main_fn loadResult interrupted
  match r.outcome with
  | MainOutcome.returns c => (c, r.wroteStderr, r.enteredLoop)
  | MainOutcome.raises _ => (1, true, r.enteredLoop)

/-- The sink selected by `display_output` for a configured output file. -/
def sinkOf : Option String → Sink
  | some p => Sink.file p
  | none => Sink.stdout

/-- A concrete engine instance whose evaluation always raises. -/
def errEngine : Engine := fun _ _ => EvalOutcome.err

/-- A concrete engine instance that always returns Python `None`. -/
def nullEngine : Engine := fun _ _ => EvalOutcome.ok JSON.null

/-- A concrete engine instance that always returns the value `2` (e.g. the
query `b` against the sample document). -/
def twoEngine : Engine := fun _ _ => EvalOutcome.ok (JSON.int 2)

/-- A concrete lexer instance: one `Token.Text` token holding the whole text. -/
def exLexer : Lexer := fun s => [("Token.Text", s)]

/-- A freshly initialized session on the sample document. -/
def demoState : DisplayState := initialState SAMPLE_JSON OutputMode.result

/-- A session state in which an expression has already been typed and a
result already displayed. -/
def c1State : DisplayState :=
  { demoState with
    last_expression := some "foo"
    last_result := some (JSON.str "foo")
    jmespath_result := PaneContent.markup [(StyleVal.attrSpec "dark green" "default", "\"foo\"")] }

/-- C1 counterexample: an edit event with empty new text does not leave Last
Expression unchanged — `_on_edit` assigns `self.last_expression = text`
before the empty-text check, so a clear overwrites Last Expression with the
empty string. -/
theorem c1_counterexample :
    (on_edit errEngine exLexer c1State "").last_expression
      ≠ c1State.last_expression := by
  decide

/-- C1 (amended): for every edit event with empty new text, and for the clear
command, the result pane is cleared and Last Result keeps its previous value,
but Last Expression is set to the empty string. -/
theorem c1_amended (engine : Engine) (lexer : Lexer) (s : DisplayState) :
    ((on_edit engine lexer s "").jmespath_result = PaneContent.plain ""
      ∧ (on_edit engine lexer s "").last_result = s.last_result
      ∧ (on_edit engine lexer s "").last_expression = some "")
    ∧ ((clear_command engine lexer s).jmespath_result = PaneContent.plain ""
      ∧ (clear_command engine lexer s).last_result = s.last_result
      ∧ (clear_command engine lexer s).last_expression = some "") := by
  simp [on_edit, clear_command]

/-- C2: for every non-empty expression whose evaluation raises, the result
pane, Last Result and the status line are exactly as they were before the
edit (the session continues: `on_edit` is a total function and the
`except Exception: pass` branch falls through with no further effect). -/
theorem c2_failure_preserves_state (engine : Engine) (lexer : Lexer)
    (s : DisplayState) (text : String) (hne : text ≠ "")
    (herr : engine s.parsed_json text = EvalOutcome.err) :
    (on_edit engine lexer s text).jmespath_result = s.jmespath_result
    ∧ (on_edit engine lexer s text).last_result = s.last_result
    ∧ (on_edit engine lexer s text).footer = s.footer := by
  simp [on_edit, hne, herr]

/-- C2 witness at the failing expression `a]` on a fresh sample session. -/
theorem c2_witness :
    ("a]" ≠ "" ∧ errEngine demoState.parsed_json "a]" = EvalOutcome.err)
    ∧ ((on_edit errEngine exLexer demoState "a]").jmespath_result
          = demoState.jmespath_result
        ∧ (on_edit errEngine exLexer demoState "a]").last_result
          = demoState.last_result
        ∧ (on_edit errEngine exLexer demoState "a]").footer = demoState.footer) :=
  ⟨⟨by decide, rfl⟩,
   c2_failure_preserves_state errEngine exLexer demoState "a]" (by decide) rfl⟩

/-- C3: for every non-empty expression that evaluates successfully to the
null value, neither Last Result nor the result pane is changed. -/
theorem c3_null_preserves_display (engine : Engine) (lexer : Lexer)
    (s : DisplayState) (text : String) (hne : text ≠ "")
    (hok : engine s.parsed_json text = EvalOutcome.ok JSON.null) :
    (on_edit engine lexer s text).last_result = s.last_result
    ∧ (on_edit engine lexer s text).jmespath_result = s.jmespath_result := by
  simp [on_edit, hne, hok, JSON.isNull]

/-- C3 witness at the expression `z` (a missing key evaluates to null) on a
fresh sample session. -/
theorem c3_witness :
    ("z" ≠ "" ∧ nullEngine demoState.parsed_json "z" = EvalOutcome.ok JSON.null)
    ∧ ((on_edit nullEngine exLexer demoState "z").last_result
          = demoState.last_result
        ∧ (on_edit nullEngine exLexer demoState "z").jmespath_result
          = demoState.jmespath_result) :=
  ⟨⟨by decide, rfl⟩,
   c3_null_preserves_display nullEngine exLexer demoState "z" (by decide) rfl⟩

/-- C4: for every non-empty expression that evaluates successfully to a
non-null value `v`, after the edit Last Result is `v`, the status line reads
"Status: success", and the result pane shows the canonical indented
serialization of `v` tokenized through the static style table. -/
theorem c4_success_updates_display (engine : Engine) (lexer : Lexer)
    (s : DisplayState) (text : String) (v : JSON) (hne : text ≠ "")
    (hok : engine s.parsed_json text = EvalOutcome.ok v)
    (hnn : v.isNull = false) :
    (on_edit engine lexer s text).last_result = some v
    ∧ (on_edit engine lexer s text).footer = "Status: success"
    ∧ (on_edit engine lexer s text).jmespath_result
        = PaneContent.markup (generate_colors (lexer (json_dumps v))) := by
  simp [on_edit, hne, hok, hnn, create_colorized_json]

/-- C4 witness: the expression `b` evaluates to `2` against the sample
document; the pane shows the tokenized serialization of `2`. -/
theorem c4_witness :
    ("b" ≠ "" ∧ twoEngine demoState.parsed_json "b" = EvalOutcome.ok (JSON.int 2)
      ∧ (JSON.int 2).isNull = false)
    ∧ ((on_edit twoEngine exLexer demoState "b").last_result = some (JSON.int 2)
        ∧ (on_edit twoEngine exLexer demoState "b").footer = "Status: success"
        ∧ (on_edit twoEngine exLexer demoState "b").jmespath_result
            = PaneContent.markup
                (generate_colors (exLexer (json_dumps (JSON.int 2))))) :=
  ⟨⟨by decide, rfl, rfl⟩,
   c4_success_updates_display twoEngine exLexer demoState "b" (JSON.int 2)
     (by decide) rfl rfl⟩

/-- C10: for every non-empty expression that evaluates successfully to the
null value, the status line is updated to "Status: success" even though the
result pane and Last Result are left unchanged (`footer.set_text` runs inside
the `try` block, before the `is not None` test). -/
theorem c10_null_updates_status (engine : Engine) (lexer : Lexer)
    (s : DisplayState) (text : String) (hne : text ≠ "")
    (hok : engine s.parsed_json text = EvalOutcome.ok JSON.null) :
    (on_edit engine lexer s text).footer = "Status: success"
    ∧ (on_edit engine lexer s text).jmespath_result = s.jmespath_result
    ∧ (on_edit engine lexer s text).last_result = s.last_result := by
  simp [on_edit, hne, hok, JSON.isNull]

/-- C10 witness at the expression `e` (whose value in the sample document is
null) on a fresh sample session. -/
theorem c10_witness :
    ("e" ≠ "" ∧ nullEngine demoState.parsed_json "e" = EvalOutcome.ok JSON.null)
    ∧ ((on_edit nullEngine exLexer demoState "e").footer = "Status: success"
        ∧ (on_edit nullEngine exLexer demoState "e").jmespath_result
          = demoState.jmespath_result
        ∧ (on_edit nullEngine exLexer demoState "e").last_result
          = demoState.last_result) :=
  ⟨⟨by decide, rfl⟩,
   c10_null_updates_status nullEngine exLexer demoState "e" (by decide) rfl⟩

/-- C5 counterexample: on a pipe delivering the single chunk `{"x": 1}`, the
drain does not complete before the standard-input descriptor is closed — the
source closes fd 0 and reopens the terminal first, and only then reads the
(duplicated) descriptor to end-of-stream. -/
theorem c5_counterexample :
    drainPrecedesClose (load_json_from_pipe_events ["\x7b\"x\": 1\x7d"]) = false := by
  decide

/-- C5 (amended): the standard-input descriptor is duplicated, closed and
reopened against the controlling terminal exactly once, and all of that
happens before the drain begins; the drain then reads the duplicate to
end-of-stream, and the parse is the final event, so the single reopen happens
regardless of the parse outcome. -/
theorem c5_reopen_once_before_drain (chunks : List String) :
    ∃ reads : List PipeEvent,
      load_json_from_pipe_events chunks =
        [PipeEvent.dupStdin, PipeEvent.closeStdin, PipeEvent.openTty]
          ++ reads ++ [PipeEvent.parseBuf]
      ∧ reads.all (fun e => e.isRead) = true
      ∧ (load_json_from_pipe_events chunks).count PipeEvent.openTty = 1 := by
  refine ⟨chunks.map (fun c => PipeEvent.readChunk c.length)
            ++ [PipeEvent.readChunk 0], ?_, ?_, ?_⟩
  · simp [load_json_from_pipe_events]
  · rw [List.all_append]
    have h2 : (chunks.map (fun c => PipeEvent.readChunk c.length)).all
        (fun e => e.isRead) = true := by
      rw [List.all_eq_true]
      intro e he
      rcases List.mem_map.mp he with ⟨c, _, rfl⟩
      rfl
    rw [h2]
    rfl
  · rw [load_json_from_pipe_events]
    rw [List.count_append, List.count_append]
    have h1 : (chunks.map (fun c => PipeEvent.readChunk c.length)).count
        PipeEvent.openTty = 0 := by
      rw [List.count_eq_zero]
      intro hmem
      rcases List.mem_map.mp hmem with ⟨c, _, hc⟩
      exact PipeEvent.noConfusion hc
    rw [h1]
    rfl

/-- C6: whenever the document load fails (whether parsing fails — a
`ValueError` caught by `main` — or the file cannot be opened — an `OSError`
that escapes `main` and is reported by the interpreter), the process writes a
diagnostic to the error stream and exits with status 1 without entering the
interactive loop; whenever the load succeeds, the process enters the loop
and exits with status 0 whether or not the user interrupts it with
`KeyboardInterrupt`. -/
theorem c6_exit_codes :
    (∀ (e : LoadErr) (interrupted : Bool),
        process_run (Except.error e) interrupted = (1, true, false))
    ∧ (∀ (doc : JSON) (interrupted : Bool),
        process_run (Except.ok doc) interrupted = (0, false, true)) := by
  constructor
  · intro e interrupted
    cases e <;> rfl
  · intro doc interrupted
    rfl

/-- C7: `_load_input_json` selects exactly one source, in priority order: an
explicit filename always wins; with no filename and a non-tty stdin the pipe
loader's outcome is returned; with no filename and an interactive terminal
the returned document is exactly the built-in `SAMPLE_JSON`. -/
theorem c7_resolver_priority (readFileJson : String → Except LoadErr JSON)
    (pipeResult : Except LoadErr JSON) :
    (∀ (f : String) (tty : Bool),
        load_input_json readFileJson tty pipeResult (some f) = readFileJson f)
    ∧ load_input_json readFileJson false pipeResult none = pipeResult
    ∧ load_input_json readFileJson true pipeResult none = Except.ok SAMPLE_JSON := by
  refine ⟨fun f tty => ?_, rfl, rfl⟩
  cases tty <;> rfl

/-- C8: at shutdown, `result` mode emits the canonical serialization of Last
Result when set and nothing otherwise; `expression` mode emits Last
Expression verbatim when set and nothing otherwise; `quiet` mode never emits;
and whatever is emitted goes to the configured file when a path was given and
to standard output otherwise. -/
theorem c8_finalizer (base : DisplayState) (fn : Option String) (r : JSON)
    (e : String) :
    (∀ le, display_output
        { base with output_mode := OutputMode.result, last_result := some r,
                    last_expression := le } fn = some (sinkOf fn, json_dumps r))
    ∧ (∀ le, display_output
        { base with output_mode := OutputMode.result, last_result := none,
                    last_expression := le } fn = none)
    ∧ (∀ lr, display_output
        { base with output_mode := OutputMode.expression, last_result := lr,
                    last_expression := some e } fn = some (sinkOf fn, e))
    ∧ (∀ lr, display_output
        { base with output_mode := OutputMode.expression, last_result := lr,
                    last_expression := none } fn = none)
    ∧ (∀ lr le, display_output
        { base with output_mode := OutputMode.quiet, last_result := lr,
                    last_expression := le } fn = none) := by
  refine ⟨fun le => ?_, fun le => ?_, fun lr => ?_, fun lr => ?_, fun lr le => ?_⟩
  · cases fn <;> rfl
  · cases le <;> rfl
  · cases fn <;> cases lr <;> rfl
  · cases lr <;> rfl
  · cases lr <;> cases le <;> rfl

/-- C9: every entry of the static token-type table is an `AttrSpec` style,
but the fallback `DEFAULT_COLOR` is not — the trailing comma in the source
makes it a 1-tuple — so a token kind absent from the table (here
`Token.Error`) is paired with a value that is not a style of the same kind as
the mapped ones. -/
theorem c9_default_style_is_tuple :
    TOKEN_TYPES.all (fun kv => kv.2.isAttrSpec) = true
    ∧ DEFAULT_COLOR.isAttrSpec = false
    ∧ generate_colors [("Token.Error", "x")]
        = [(StyleVal.tuple1 (StyleVal.attrSpec "light blue" "default"), "x")] := by
  refine ⟨rfl, rfl, ?_⟩
  decide
